import Mathlib

/-!
Shallow embedding of `src/core/security/server_secure_chttp2.c`.

The file under verification wires a server credential to a set of bound
addresses and registers a secure listener with a grpc server.  External
collaborators (credential context construction, address resolution,
`grpc_tcp_server_create`, `grpc_tcp_server_add_port`) are modelled by an
environment `Env` recording their outcomes; the function
`grpc_server_add_secure_http2_port` below is a line-by-line translation of
the C function of the same name, returning a `CallState` that records the
return value, which resources were allocated and released, whether the
listener was registered, and which messages were logged.  A `GPR_ASSERT`
failure (abort) is modelled as `none`.
-/

/-- Credential type string for SSL credentials (`GRPC_CREDENTIALS_TYPE_SSL`). -/
def GRPC_CREDENTIALS_TYPE_SSL : String := "Ssl"

/-- Credential type string for fake transport security
(`GRPC_CREDENTIALS_TYPE_FAKE_TRANSPORT_SECURITY`). -/
def GRPC_CREDENTIALS_TYPE_FAKE_TRANSPORT_SECURITY : String := "FakeTransportSecurity"

/-- A `grpc_server_credentials`: only its `type` tag is inspected by this file. -/
structure grpc_server_credentials where
  ctype : String
deriving DecidableEq, Repr

/-- Outcomes of the external collaborators used by
`grpc_server_add_secure_http2_port`:
`creds` is the credential argument (`none` models a NULL pointer);
`sslCreateOk` is whether `grpc_ssl_server_security_context_create` succeeds;
`resolvedBinds` is `none` when `grpc_blocking_resolve_address` fails, and
otherwise the list of return values of `grpc_tcp_server_add_port`, one per
resolved address (a negative value is a failed bind, a value `>= 0` is the
bound port); `tcpCreateOk` is whether `grpc_tcp_server_create` succeeds. -/
structure Env where
  creds : Option grpc_server_credentials
  sslCreateOk : Bool
  resolvedBinds : Option (List Int)
  tcpCreateOk : Bool
deriving DecidableEq, Repr

/-- Log messages emitted by `grpc_server_add_secure_http2_port`
(all via `gpr_log(GPR_ERROR, ...)` in the source). -/
inductive LogEvent where
  | unableToCreateSecureServer (ctype : String)
  | noAddressAdded (naddrs : Nat)
  | someAddressesNotAdded (count : Nat) (naddrs : Nat)
deriving DecidableEq, Repr

/-- Observable state when `grpc_server_add_secure_http2_port` returns:
the return value, which resources were allocated during the call and how
many times each was released, whether `grpc_server_add_listener` ran, and
the log messages emitted. -/
structure CallState where
  ret : Int
  ctxCreated : Bool
  ctxUnrefs : Nat
  resolvedCreated : Bool
  resolvedDestroys : Nat
  tcpCreated : Bool
  tcpDestroys : Nat
  spAllocated : Bool
  spFreed : Bool
  registered : Bool
  logs : List LogEvent
deriving DecidableEq, Repr

/-- The `error:` label of the C function: unref the security context if one
was created, destroy the resolved address set and the tcp server if they
were created, free the secured_port if it was allocated (it never is on an
error path: every `goto error` precedes the `gpr_malloc`), and return 0. -/
def errorCleanup (ctxCreated resolvedCreated tcpCreated : Bool)
    (logs : List LogEvent) : CallState :=
  { ret := 0
    ctxCreated := ctxCreated
    ctxUnrefs := if ctxCreated then 1 else 0
    resolvedCreated := resolvedCreated
    resolvedDestroys := if resolvedCreated then 1 else 0
    tcpCreated := tcpCreated
    tcpDestroys := if tcpCreated then 1 else 0
    spAllocated := false
    spFreed := false
    registered := false
    logs := logs }

/-- The `create security context` block (lines 109-126): NULL credentials
fail; SSL credentials succeed iff `grpc_ssl_server_security_context_create`
does; fake-transport-security credentials always succeed; any other type
tag leaves `status == GRPC_SECURITY_ERROR`.  `true` means a context was
produced and `status == GRPC_SECURITY_OK`. -/
def contextOk (env : Env) : Bool :=
  match env.creds with
  | none => false
  | some creds =>
    if creds.ctype = GRPC_CREDENTIALS_TYPE_SSL then env.sslCreateOk
    else if creds.ctype = GRPC_CREDENTIALS_TYPE_FAKE_TRANSPORT_SECURITY then true
    else false

/-- The `for (i = 0; i < resolved->naddrs; i++)` loop (lines 139-151),
threading `port_num` (initially -1) and `count` (initially 0).  A bind
result `>= 0` is a success: the first success sets `port_num`, each later
success runs `GPR_ASSERT(port_num == port_temp)` — modelled as `none`
(abort) when the assertion fails — and increments `count`. -/
def bindLoop : List Int → Int → Nat → Option (Int × Nat)
  | [], port_num, count => some (port_num, count)
  | port_temp :: rest, port_num, count =>
    if 0 ≤ port_temp then
      if port_num = -1 then
        bindLoop rest port_temp (count + 1)
      else if port_num = port_temp then
        bindLoop rest port_num (count + 1)
      else
        none
    else
      bindLoop rest port_num count

/-- The state in which `grpc_server_add_secure_http2_port` returns after
the bind loop found at least one successful bind: the resolved address set
is destroyed, a `secured_port` is allocated and populated, the listener is
registered with the server via `grpc_server_add_listener`, and `port_num`
is returned; a warning is logged first when fewer than `naddrs` addresses
were added. -/
def successState (port_num : Int) (count : Nat) (naddrs : Nat) : CallState :=
  { ret := port_num
    ctxCreated := true
    ctxUnrefs := 0
    resolvedCreated := true
    resolvedDestroys := 1
    tcpCreated := true
    tcpDestroys := 0
    spAllocated := true
    spFreed := false
    registered := true
    logs := if count ≠ naddrs then
        [LogEvent.someAddressesNotAdded count naddrs]
      else [] }

/-- `grpc_server_add_secure_http2_port` (lines 98-189), translated
branch-for-branch; `none` is a `GPR_ASSERT` abort inside the bind loop. -/
def grpc_server_add_secure_http2_port (env : Env) : Option CallState :=
  match env.creds with
  | none => some (errorCleanup false false false [])
  | some creds =>
    if contextOk env = false then
      some (errorCleanup false false false
        [LogEvent.unableToCreateSecureServer creds.ctype])
    else
      match env.resolvedBinds with
      | none => some (errorCleanup true false false [])
      | some binds =>
        if env.tcpCreateOk = false then
          some (errorCleanup true true false [])
        else
          match bindLoop binds (-1) 0 with
          | none => none
          | some (port_num, count) =>
            if count = 0 then
              some (errorCleanup true true true
                [LogEvent.noAddressAdded binds.length])
            else
              some (successState port_num count binds.length)

/-- Number of addresses that bind successfully (`grpc_tcp_server_add_port`
returned a value `>= 0`). -/
def countNonneg : List Int → Nat
  | [] => 0
  | x :: rest => (if 0 ≤ x then 1 else 0) + countNonneg rest

/-- The canonical port: the result of the first successful bind
(-1 if no bind succeeds, matching the initial value of `port_num`). -/
def canonicalPort : List Int → Int
  | [] => -1
  | x :: rest => if 0 ≤ x then x else canonicalPort rest

/-- Every resource the call allocated was released (exactly once), or for
the secured_port record, freed whenever it was allocated. -/
abbrev allReleased (st : CallState) : Prop :=
  (st.ctxCreated → st.ctxUnrefs = 1) ∧
  (st.resolvedCreated → st.resolvedDestroys = 1) ∧
  (st.tcpCreated → st.tcpDestroys = 1) ∧
  (st.spAllocated → st.spFreed)

/-- The whole sequence succeeds: a security context is produced, the
address resolves, the tcp server is created, and at least one bind
succeeds. -/
def callSucceedsB (env : Env) : Bool :=
  contextOk env && env.tcpCreateOk &&
    (match env.resolvedBinds with
     | none => false
     | some binds => decide (0 < countNonneg binds))

/- ### Handshake-completion dispatch (`on_secure_transport_setup_done`,
`setup_transport`) -/

/-- `GRPC_SECURITY_OK` of `grpc_security_status`. -/
def GRPC_SECURITY_OK : Nat := 0

/-- The channel filters this file mentions: `&grpc_http_server_filter` and
`&grpc_http_filter`. -/
inductive ChannelFilter where
  | grpc_http_server_filter
  | grpc_http_filter
deriving DecidableEq, Repr

/-- A grpc server as seen from this file: only
`grpc_server_get_channel_args` is applied to it. -/
structure GrpcServer where
  channelArgs : Nat
deriving DecidableEq, Repr

/-- `grpc_server_get_channel_args`: accessor of the owning server's channel
configuration. -/
def grpc_server_get_channel_args (s : GrpcServer) : Nat :=
  s.channelArgs

/-- The configuration with which a chttp2 transport is constructed on
handshake success: the owning server, its channel args, the secured
endpoint, the extra filter list handed over by `setup_transport`, and the
metadata context created by `grpc_mdctx_create()`. -/
structure TransportCfg where
  server : GrpcServer
  channelArgs : Nat
  endpoint : Nat
  extraFilters : List ChannelFilter
  mdctx : Nat
deriving DecidableEq, Repr

/-- `setup_transport` (lines 50-57): supplies the static `extra_filters`
array `{&grpc_http_server_filter, &grpc_http_filter}` of size
`GPR_ARRAY_SIZE(extra_filters) = 2` to `grpc_server_setup_transport`. -/
def setup_transport_filters : List ChannelFilter :=
  [ChannelFilter.grpc_http_server_filter, ChannelFilter.grpc_http_filter]

/-- Outcome of `on_secure_transport_setup_done`: either a chttp2 transport
is constructed, or the failure is logged with its status code. -/
inductive HandshakeOutcome where
  | transportCreated (cfg : TransportCfg)
  | loggedFailure (status : Nat)
deriving DecidableEq, Repr

/-- `on_secure_transport_setup_done` (lines 59-69): on `GRPC_SECURITY_OK`
call `grpc_create_chttp2_transport(setup_transport, server,
grpc_server_get_channel_args(server), secure_endpoint, NULL, 0,
grpc_mdctx_create(), 0)` — the transport is set up over the secured
endpoint with the filters of `setup_transport` and a freshly created
metadata context (`freshMdctx` models the value `grpc_mdctx_create()`
returns for this call); otherwise log the error with the status code. -/
def on_secure_transport_setup_done (server : GrpcServer) (status : Nat)
    (secureEndpoint : Nat) (freshMdctx : Nat) : HandshakeOutcome :=
  if status = GRPC_SECURITY_OK then
    HandshakeOutcome.transportCreated
      { server := server
        channelArgs := grpc_server_get_channel_args server
        endpoint := secureEndpoint
        extraFilters := setup_transport_filters
        mdctx := freshMdctx }
  else
    HandshakeOutcome.loggedFailure status

/- ### Listener lifecycle callbacks (`start`, `destroy`) -/

/-- The `secured_port` record: a tcp server, a security context and the
owning server (modelled by identifiers). -/
structure secured_port where
  tcp : Nat
  ctx : Nat
  server : Nat
deriving DecidableEq, Repr

/-- Effects the lifecycle callbacks perform. -/
inductive LifeEffect where
  | tcpServerStart (tcp : Nat)
  | tcpServerDestroy (tcp : Nat)
  | securityContextUnref (ctx : Nat)
  | freeSp
deriving DecidableEq, Repr

/-- `start` (lines 84-87): start the tcp server accepting. -/
def start (sp : secured_port) : List LifeEffect :=
  [LifeEffect.tcpServerStart sp.tcp]

/-- `destroy` (lines 91-96): destroy the tcp server, unref the security
context, free the secured_port — unconditionally, with no reference to any
prior `start`. -/
def destroy (sp : secured_port) : List LifeEffect :=
  [LifeEffect.tcpServerDestroy sp.tcp,
   LifeEffect.securityContextUnref sp.ctx,
   LifeEffect.freeSp]

/- ### Concrete environments used by witnesses and counterexamples -/

/-- Fake-transport-security credentials. -/
def fakeCreds : grpc_server_credentials :=
  { ctype := GRPC_CREDENTIALS_TYPE_FAKE_TRANSPORT_SECURITY }

/-- NULL credentials passed. -/
def envNoCreds : Env :=
  { creds := none, sslCreateOk := false, resolvedBinds := none,
    tcpCreateOk := false }

/-- Three resolved addresses, two bind to port 8080, one fails. -/
def envDegraded : Env :=
  { creds := some fakeCreds, sslCreateOk := false,
    resolvedBinds := some [8080, -1, 8080], tcpCreateOk := true }

/-- One resolved address binding to port 0. -/
def envPortZero : Env :=
  { creds := some fakeCreds, sslCreateOk := false,
    resolvedBinds := some [0], tcpCreateOk := true }

/-- Two resolved addresses, neither binds. -/
def envNoBind : Env :=
  { creds := some fakeCreds, sslCreateOk := false,
    resolvedBinds := some [-1, -2], tcpCreateOk := true }

/-- Two resolved addresses binding to different ports. -/
def envMismatch : Env :=
  { creds := some fakeCreds, sslCreateOk := false,
    resolvedBinds := some [80, 81], tcpCreateOk := true }

example : grpc_server_add_secure_http2_port envDegraded =
    some (successState 8080 2 3) := by decide

example : grpc_server_add_secure_http2_port envMismatch = none := by decide

example : grpc_server_add_secure_http2_port envNoBind =
    some (errorCleanup true true true [LogEvent.noAddressAdded 2]) := by decide

/- ### Facts about the bind loop -/

/-- When the bind loop returns (no assertion abort), `count` has grown by
the number of successful binds and, started from `port_num = -1`, the
returned port is the first successful bind's port, which every successful
bind matched; started from any other `port_num`, it is returned unchanged
and every successful bind matched it. -/
theorem bindLoop_some_spec (binds : List Int) :
    ∀ (p0 : Int) (c0 : Nat) (p : Int) (c : Nat),
      bindLoop binds p0 c0 = some (p, c) →
      c = c0 + countNonneg binds ∧
      (if p0 = -1
        then p = canonicalPort binds ∧ ∀ x ∈ binds, 0 ≤ x → x = p
        else p = p0 ∧ ∀ x ∈ binds, 0 ≤ x → x = p0) := by
  induction binds with
  | nil =>
    intro p0 c0 p c h
    simp only [bindLoop, Option.some.injEq, Prod.mk.injEq] at h
    obtain ⟨hp, hc⟩ := h
    subst hp; subst hc
    refine ⟨by simp [countNonneg], ?_⟩
    by_cases hp0 : p0 = -1
    · simp [hp0, canonicalPort]
    · simp [hp0]
  | cons hd rest ih =>
    intro p0 c0 p c h
    rw [bindLoop] at h
    by_cases hhd : 0 ≤ hd
    · rw [if_pos hhd] at h
      by_cases hp0 : p0 = -1
      · rw [if_pos hp0] at h
        have hih := ih hd (c0 + 1) p c h
        have hhdne : ¬ (hd = -1) := by omega
        rw [if_neg hhdne] at hih
        have hc := hih.1
        have hp := hih.2.1
        have hall := hih.2.2
        constructor
        · simp only [countNonneg, if_pos hhd]
          omega
        · rw [if_pos hp0]
          constructor
          · simp [canonicalPort, if_pos hhd, hp]
          · intro x hx hxnn
            rcases List.mem_cons.mp hx with hx | hx
            · subst hx; omega
            · have := hall x hx hxnn
              omega
      · rw [if_neg hp0] at h
        by_cases heq : p0 = hd
        · rw [if_pos heq] at h
          have hih := ih p0 (c0 + 1) p c h
          rw [if_neg hp0] at hih
          have hc := hih.1
          have hp := hih.2.1
          have hall := hih.2.2
          constructor
          · simp only [countNonneg, if_pos hhd]
            omega
          · rw [if_neg hp0]
            refine ⟨hp, ?_⟩
            intro x hx hxnn
            rcases List.mem_cons.mp hx with hx | hx
            · subst hx; omega
            · exact hall x hx hxnn
        · rw [if_neg heq] at h
          exact absurd h (by simp)
    · rw [if_neg hhd] at h
      have hih := ih p0 c0 p c h
      constructor
      · simp only [countNonneg, if_neg hhd]
        omega
      · by_cases hp0 : p0 = -1
        · rw [if_pos hp0] at hih ⊢
          obtain ⟨hp, hall⟩ := hih.2
          refine ⟨by simp [canonicalPort, if_neg hhd, hp], ?_⟩
          intro x hx hxnn
          rcases List.mem_cons.mp hx with hx | hx
          · subst hx; exact absurd hxnn hhd
          · exact hall x hx hxnn
        · rw [if_neg hp0] at hih ⊢
          obtain ⟨hp, hall⟩ := hih.2
          refine ⟨hp, ?_⟩
          intro x hx hxnn
          rcases List.mem_cons.mp hx with hx | hx
          · subst hx; exact absurd hxnn hhd
          · exact hall x hx hxnn

/-- If all successful bind results agree on the port, and the running
`port_num` is either still -1 or equal to that port, the loop never hits
the `GPR_ASSERT`. -/
theorem bindLoop_isSome (binds : List Int) :
    ∀ (p0 : Int) (c0 : Nat),
      (∀ a ∈ binds, ∀ b ∈ binds, 0 ≤ a → 0 ≤ b → a = b) →
      (∀ x ∈ binds, 0 ≤ x → p0 = -1 ∨ p0 = x) →
      (bindLoop binds p0 c0).isSome = true := by
  induction binds with
  | nil =>
    intro p0 c0 _ _
    simp [bindLoop]
  | cons hd rest ih =>
    intro p0 c0 hsame hp0
    rw [bindLoop]
    by_cases hhd : 0 ≤ hd
    · rw [if_pos hhd]
      by_cases hp0e : p0 = -1
      · rw [if_pos hp0e]
        refine ih hd (c0 + 1) ?_ ?_
        · intro a ha b hb hna hnb
          exact hsame a (List.mem_cons_of_mem _ ha) b (List.mem_cons_of_mem _ hb) hna hnb
        · intro x hx hxnn
          right
          exact hsame hd (List.mem_cons_self _ _) x (List.mem_cons_of_mem _ hx) hhd hxnn
      · rw [if_neg hp0e]
        rcases hp0 hd (List.mem_cons_self _ _) hhd with h | h
        · exact absurd h hp0e
        · rw [if_pos h]
          refine ih p0 (c0 + 1) ?_ ?_
          · intro a ha b hb hna hnb
            exact hsame a (List.mem_cons_of_mem _ ha) b (List.mem_cons_of_mem _ hb) hna hnb
          · intro x hx hxnn
            exact hp0 x (List.mem_cons_of_mem _ hx) hxnn
    · rw [if_neg hhd]
      refine ih p0 c0 ?_ ?_
      · intro a ha b hb hna hnb
        exact hsame a (List.mem_cons_of_mem _ ha) b (List.mem_cons_of_mem _ hb) hna hnb
      · intro x hx hxnn
        exact hp0 x (List.mem_cons_of_mem _ hx) hxnn

/-- With at least one successful bind, the canonical port is `>= 0`. -/
theorem canonicalPort_nonneg (binds : List Int) :
    countNonneg binds ≠ 0 → 0 ≤ canonicalPort binds := by
  induction binds with
  | nil => intro h; exact absurd rfl h
  | cons hd rest ih =>
    intro h
    by_cases hhd : 0 ≤ hd
    · simp [canonicalPort, if_pos hhd, hhd]
    · simp only [canonicalPort, if_neg hhd]
      refine ih ?_
      simpa [countNonneg, if_neg hhd] using h

/-- When every bind fails, no bind is counted as successful. -/
theorem countNonneg_zero (binds : List Int) :
    (∀ x ∈ binds, x < 0) → countNonneg binds = 0 := by
  induction binds with
  | nil => intro _; rfl
  | cons hd rest ih =>
    intro h
    have hhd : ¬ (0 ≤ hd) := by
      have := h hd (List.mem_cons_self _ _)
      omega
    simp only [countNonneg, if_neg hhd]
    simpa using ih (fun x hx => h x (List.mem_cons_of_mem _ hx))

/-- `contextOk` requires a non-NULL credential. -/
theorem contextOk_creds (env : Env) (h : contextOk env = true) :
    ∃ c, env.creds = some c := by
  cases hc : env.creds with
  | none => rw [contextOk, hc] at h; exact absurd h (by simp)
  | some c => exact ⟨c, rfl⟩

/- ### Characterization of the call's paths -/

/-- Once the security context is created, the address resolved and the tcp
server created, the call's outcome is decided by the bind loop alone. -/
theorem add_secure_reaches_loop (env : Env) (creds : grpc_server_credentials)
    (binds : List Int) (p : Int) (cnt : Nat)
    (hc : env.creds = some creds) (hctx : contextOk env = true)
    (hrb : env.resolvedBinds = some binds) (htcp : env.tcpCreateOk = true)
    (hb : bindLoop binds (-1) 0 = some (p, cnt)) :
    grpc_server_add_secure_http2_port env =
      if cnt = 0 then
        some (errorCleanup true true true [LogEvent.noAddressAdded binds.length])
      else some (successState p cnt binds.length) := by
  simp [grpc_server_add_secure_http2_port, hc, hctx, hrb, htcp, hb]

/-- Every normal return of `grpc_server_add_secure_http2_port` is one of
five shapes: context-creation failure, resolution failure, tcp-server
creation failure, zero successful binds, or success. -/
theorem add_secure_cases (env : Env) (st : CallState)
    (h : grpc_server_add_secure_http2_port env = some st) :
    (contextOk env = false ∧
      (st = errorCleanup false false false [] ∨
       ∃ c, env.creds = some c ∧
         st = errorCleanup false false false
           [LogEvent.unableToCreateSecureServer c.ctype])) ∨
    (contextOk env = true ∧ env.resolvedBinds = none ∧
      st = errorCleanup true false false []) ∨
    (∃ binds, contextOk env = true ∧ env.resolvedBinds = some binds ∧
      env.tcpCreateOk = false ∧ st = errorCleanup true true false []) ∨
    (∃ binds, contextOk env = true ∧ env.resolvedBinds = some binds ∧
      env.tcpCreateOk = true ∧ countNonneg binds = 0 ∧
      st = errorCleanup true true true [LogEvent.noAddressAdded binds.length]) ∨
    (∃ binds, contextOk env = true ∧ env.resolvedBinds = some binds ∧
      env.tcpCreateOk = true ∧ countNonneg binds ≠ 0 ∧
      st = successState (canonicalPort binds) (countNonneg binds) binds.length) := by
  obtain ⟨cr, sslOk, rb, tcpOk⟩ := env
  cases cr with
  | none =>
    simp only [grpc_server_add_secure_http2_port, Option.some.injEq] at h
    left
    refine ⟨by simp [contextOk], Or.inl h.symm⟩
  | some c =>
    cases hctx : contextOk ⟨some c, sslOk, rb, tcpOk⟩ with
    | false =>
      simp [grpc_server_add_secure_http2_port, hctx] at h
      left
      exact ⟨rfl, Or.inr ⟨c, rfl, h.symm⟩⟩
    | true =>
      cases rb with
      | none =>
        simp [grpc_server_add_secure_http2_port, hctx] at h
        right; left
        exact ⟨rfl, rfl, h.symm⟩
      | some binds =>
        cases tcpOk with
        | false =>
          simp [grpc_server_add_secure_http2_port, hctx] at h
          right; right; left
          exact ⟨binds, rfl, rfl, rfl, h.symm⟩
        | true =>
          cases hb : bindLoop binds (-1) 0 with
          | none =>
            simp [grpc_server_add_secure_http2_port, hctx, hb] at h
          | some pc =>
            obtain ⟨p, cnt⟩ := pc
            have hspec := bindLoop_some_spec binds (-1) 0 p cnt hb
            rw [if_pos rfl] at hspec
            have hcnt : cnt = countNonneg binds := by
              have := hspec.1
              omega
            have hp : p = canonicalPort binds := hspec.2.1
            by_cases hz : cnt = 0
            · simp [grpc_server_add_secure_http2_port, hctx, hb, hz] at h
              right; right; right; left
              exact ⟨binds, rfl, rfl, rfl, by omega, h.symm⟩
            · simp [grpc_server_add_secure_http2_port, hctx, hb, hz] at h
              right; right; right; right
              refine ⟨binds, rfl, rfl, rfl, by omega, ?_⟩
              rw [← h, hp, hcnt]

/- ### Claim theorems -/

/-- C1: whenever `grpc_server_add_secure_http2_port` returns, the listener
is registered with the owning server exactly when the whole sequence
succeeded, and on every failure path every resource allocated during the
call (security context, resolved address set, tcp server, secured_port
record) has been released before the return. -/
theorem add_secure_http2_port_registers_iff_success (env : Env)
    (st : CallState) (h : grpc_server_add_secure_http2_port env = some st) :
    st.registered = callSucceedsB env ∧
    (st.registered = false → allReleased st) := by
  rcases add_secure_cases env st h with
    ⟨hctx, hst⟩ | ⟨hctx, hrb, hst⟩ | ⟨binds, hctx, hrb, htcp, hst⟩ |
    ⟨binds, hctx, hrb, htcp, hz, hst⟩ | ⟨binds, hctx, hrb, htcp, hz, hst⟩
  · rcases hst with hst | ⟨c, hc, hst⟩ <;> subst hst <;>
      exact ⟨by simp [callSucceedsB, hctx, errorCleanup],
        fun _ => by simp [errorCleanup, allReleased]⟩
  · subst hst
    exact ⟨by simp [callSucceedsB, hrb, errorCleanup],
      fun _ => by simp [errorCleanup, allReleased]⟩
  · subst hst
    exact ⟨by simp [callSucceedsB, htcp, errorCleanup],
      fun _ => by simp [errorCleanup, allReleased]⟩
  · subst hst
    exact ⟨by simp [callSucceedsB, hrb, hz, errorCleanup],
      fun _ => by simp [errorCleanup, allReleased]⟩
  · subst hst
    constructor
    · simp [callSucceedsB, hctx, hrb, htcp, successState,
        Nat.pos_of_ne_zero hz]
    · intro hreg
      simp [successState] at hreg

/-- Witness for C1 at NULL credentials. -/
theorem add_secure_http2_port_registers_iff_success_witness :
    (errorCleanup false false false []).registered = callSucceedsB envNoCreds ∧
    ((errorCleanup false false false []).registered = false →
      allReleased (errorCleanup false false false [])) :=
  add_secure_http2_port_registers_iff_success envNoCreds
    (errorCleanup false false false []) (by decide)

/-- C2: in the bind loop, the first successful bind fixes the canonical
port; if all successful binds agree on the port the `GPR_ASSERT` branch is
unreachable and the call returns normally, while two successful binds with
different ports make the call abort (`none`) instead of registering an
inconsistent listener. -/
theorem add_secure_http2_port_port_consistency (env : Env)
    (binds : List Int) (hrb : env.resolvedBinds = some binds) :
    ((∀ a ∈ binds, ∀ b ∈ binds, 0 ≤ a → 0 ≤ b → a = b) →
      (grpc_server_add_secure_http2_port env).isSome = true) ∧
    (contextOk env = true → env.tcpCreateOk = true →
      (∃ a ∈ binds, ∃ b ∈ binds, 0 ≤ a ∧ 0 ≤ b ∧ a ≠ b) →
      grpc_server_add_secure_http2_port env = none) := by
  constructor
  · intro hsame
    cases hc : env.creds with
    | none => simp [grpc_server_add_secure_http2_port, hc]
    | some c =>
      cases hctx : contextOk env with
      | false => simp [grpc_server_add_secure_http2_port, hc, hctx]
      | true =>
        cases htc : env.tcpCreateOk with
        | false => simp [grpc_server_add_secure_http2_port, hc, hctx, hrb, htc]
        | true =>
          have hbs := bindLoop_isSome binds (-1) 0 hsame
            (fun x _ _ => Or.inl rfl)
          rw [Option.isSome_iff_exists] at hbs
          obtain ⟨pc, hb⟩ := hbs
          obtain ⟨p, cnt⟩ := pc
          by_cases hz : cnt = 0 <;>
            simp [grpc_server_add_secure_http2_port, hc, hctx, hrb, htc, hb, hz]
  · intro hctx htcp hmis
    obtain ⟨a, ha, b, hbm, hna, hnb, hne⟩ := hmis
    obtain ⟨c, hc⟩ := contextOk_creds env hctx
    have hnone : bindLoop binds (-1) 0 = none := by
      cases hb : bindLoop binds (-1) 0 with
      | none => rfl
      | some pc =>
        obtain ⟨p, cnt⟩ := pc
        have hspec := bindLoop_some_spec binds (-1) 0 p cnt hb
        rw [if_pos rfl] at hspec
        have h1 := hspec.2.2 a ha hna
        have h2 := hspec.2.2 b hbm hnb
        exact absurd (h1.trans h2.symm) hne
    simp [grpc_server_add_secure_http2_port, hc, hctx, hrb, htcp, hnone]

/-- Witness for C2: two addresses bound to ports 80 and 81 make the call
abort. -/
theorem add_secure_http2_port_port_consistency_witness :
    grpc_server_add_secure_http2_port envMismatch = none :=
  (add_secure_http2_port_port_consistency envMismatch [80, 81] rfl).2
    (by decide) rfl
    ⟨80, by decide, 81, by decide, by decide, by decide, by decide⟩

/-- C3: when the successful binds agree on the port and `0 < M < N`
addresses bind successfully, the call still succeeds: it registers the
listener, returns the canonical port of the first successful bind, and the
shortfall is only reported as a log message
(`Only %d addresses added out of total %d resolved`). -/
theorem add_secure_http2_port_degraded_mode (env : Env)
    (creds : grpc_server_credentials) (binds : List Int)
    (hc : env.creds = some creds) (hctx : contextOk env = true)
    (hrb : env.resolvedBinds = some binds) (htcp : env.tcpCreateOk = true)
    (hsame : ∀ a ∈ binds, ∀ b ∈ binds, 0 ≤ a → 0 ≤ b → a = b)
    (hM : 0 < countNonneg binds) (hN : countNonneg binds < binds.length) :
    grpc_server_add_secure_http2_port env =
      some (successState (canonicalPort binds) (countNonneg binds)
        binds.length) ∧
    (successState (canonicalPort binds) (countNonneg binds)
      binds.length).registered = true ∧
    (successState (canonicalPort binds) (countNonneg binds)
      binds.length).ret = canonicalPort binds ∧
    0 ≤ canonicalPort binds ∧
    LogEvent.someAddressesNotAdded (countNonneg binds) binds.length ∈
      (successState (canonicalPort binds) (countNonneg binds)
        binds.length).logs := by
  have hbs := bindLoop_isSome binds (-1) 0 hsame (fun x _ _ => Or.inl rfl)
  rw [Option.isSome_iff_exists] at hbs
  obtain ⟨pc, hb⟩ := hbs
  obtain ⟨p, cnt⟩ := pc
  have hspec := bindLoop_some_spec binds (-1) 0 p cnt hb
  rw [if_pos rfl] at hspec
  have hcnt : cnt = countNonneg binds := by
    have := hspec.1
    omega
  have hp : p = canonicalPort binds := hspec.2.1
  have heq := add_secure_reaches_loop env creds binds p cnt hc hctx hrb htcp hb
  rw [if_neg (by omega)] at heq
  refine ⟨by rw [heq, hp, hcnt], by simp [successState], by simp [successState],
    canonicalPort_nonneg binds (by omega), ?_⟩
  simp only [successState]
  rw [if_pos (by omega)]
  simp

/-- Witness for C3: three resolved addresses, two bind to 8080, one fails;
the call returns 8080, registers, and logs the shortfall. -/
theorem add_secure_http2_port_degraded_mode_witness :
    grpc_server_add_secure_http2_port envDegraded =
      some (successState 8080 2 3) ∧
    LogEvent.someAddressesNotAdded 2 3 ∈ (successState 8080 2 3).logs := by
  have h := add_secure_http2_port_degraded_mode envDegraded fakeCreds
    [8080, -1, 8080] rfl (by decide) rfl rfl (by decide) (by decide) (by decide)
  exact ⟨h.1, h.2.2.2.2⟩

/-- C4: when the call reaches the bind loop but zero addresses bind
successfully, it returns the failure sentinel 0 without registering, and
the tcp server, the resolved address set and the security context are all
released exactly once before the return. -/
theorem add_secure_http2_port_zero_binds (env : Env) (binds : List Int)
    (st : CallState) (hrb : env.resolvedBinds = some binds)
    (hctx : contextOk env = true) (htcp : env.tcpCreateOk = true)
    (hfail : ∀ x ∈ binds, x < 0)
    (h : grpc_server_add_secure_http2_port env = some st) :
    st.ret = 0 ∧ st.registered = false ∧
    st.ctxCreated = true ∧ st.ctxUnrefs = 1 ∧
    st.resolvedCreated = true ∧ st.resolvedDestroys = 1 ∧
    st.tcpCreated = true ∧ st.tcpDestroys = 1 ∧
    st.spAllocated = false := by
  have hcz := countNonneg_zero binds hfail
  rcases add_secure_cases env st h with
    ⟨hctx2, _⟩ | ⟨_, hrb2, _⟩ | ⟨binds2, _, _, htcp2, _⟩ |
    ⟨binds2, _, _, _, _, hst⟩ | ⟨binds2, _, hrb2, _, hz2, _⟩
  · rw [hctx] at hctx2
    exact absurd hctx2 (by simp)
  · rw [hrb] at hrb2
    exact absurd hrb2 (by simp)
  · rw [htcp] at htcp2
    exact absurd htcp2 (by simp)
  · subst hst
    simp [errorCleanup]
  · rw [hrb] at hrb2
    have hbb := Option.some.inj hrb2
    subst hbb
    exact absurd hcz hz2

/-- Witness for C4: two resolved addresses, neither binds. -/
theorem add_secure_http2_port_zero_binds_witness :
    (errorCleanup true true true [LogEvent.noAddressAdded 2]).ret = 0 ∧
    (errorCleanup true true true [LogEvent.noAddressAdded 2]).registered
      = false ∧
    (errorCleanup true true true [LogEvent.noAddressAdded 2]).ctxCreated
      = true ∧
    (errorCleanup true true true [LogEvent.noAddressAdded 2]).ctxUnrefs
      = 1 ∧
    (errorCleanup true true true [LogEvent.noAddressAdded 2]).resolvedCreated
      = true ∧
    (errorCleanup true true true [LogEvent.noAddressAdded 2]).resolvedDestroys
      = 1 ∧
    (errorCleanup true true true [LogEvent.noAddressAdded 2]).tcpCreated
      = true ∧
    (errorCleanup true true true [LogEvent.noAddressAdded 2]).tcpDestroys
      = 1 ∧
    (errorCleanup true true true [LogEvent.noAddressAdded 2]).spAllocated
      = false :=
  add_secure_http2_port_zero_binds envNoBind [-1, -2]
    (errorCleanup true true true [LogEvent.noAddressAdded 2]) rfl (by decide)
    rfl (by decide) (by decide)

/-- C5 counterexample: the failure sentinel is 0, but a call whose single
address binds successfully to port 0 also returns 0 while registering the
listener — so the sentinel is not distinguishable from every valid success
result. -/
theorem add_secure_http2_port_sentinel_collision :
    grpc_server_add_secure_http2_port envPortZero =
      some (successState 0 1 1) ∧
    (successState 0 1 1).registered = true ∧
    (successState 0 1 1).ret = 0 ∧
    grpc_server_add_secure_http2_port envNoCreds =
      some (errorCleanup false false false []) ∧
    (errorCleanup false false false []).registered = false ∧
    (errorCleanup false false false []).ret = 0 := by decide

/-- C5 amended: the call returns the canonical port number (the first
successful bind's port, >= 0) on success and the sentinel 0 on every
failure path; a success whose port is positive is distinguishable from
every failure return, but a success that bound port 0 coincides with the
sentinel. -/
theorem add_secure_http2_port_sentinel (env : Env) (st : CallState)
    (h : grpc_server_add_secure_http2_port env = some st) :
    (st.registered = false → st.ret = 0) ∧
    (st.registered = true →
      ∃ binds, env.resolvedBinds = some binds ∧
        st.ret = canonicalPort binds ∧ 0 ≤ canonicalPort binds) ∧
    (st.registered = true → 0 < st.ret →
      ∀ (envF : Env) (stF : CallState),
        grpc_server_add_secure_http2_port envF = some stF →
        stF.registered = false → st.ret ≠ stF.ret) := by
  rcases add_secure_cases env st h with
    ⟨hctx, hst⟩ | ⟨hctx, hrb, hst⟩ | ⟨binds, hctx, hrb, htcp, hst⟩ |
    ⟨binds, hctx, hrb, htcp, hz, hst⟩ | ⟨binds, hctx, hrb, htcp, hz, hst⟩
  · rcases hst with hst | ⟨c, hc, hst⟩ <;> subst hst <;>
      exact ⟨fun _ => rfl, fun hreg => by simp [errorCleanup] at hreg,
        fun hreg => by simp [errorCleanup] at hreg⟩
  · subst hst
    exact ⟨fun _ => rfl, fun hreg => by simp [errorCleanup] at hreg,
      fun hreg => by simp [errorCleanup] at hreg⟩
  · subst hst
    exact ⟨fun _ => rfl, fun hreg => by simp [errorCleanup] at hreg,
      fun hreg => by simp [errorCleanup] at hreg⟩
  · subst hst
    exact ⟨fun _ => rfl, fun hreg => by simp [errorCleanup] at hreg,
      fun hreg => by simp [errorCleanup] at hreg⟩
  · subst hst
    have hcp := canonicalPort_nonneg binds hz
    refine ⟨fun hreg => by simp [successState] at hreg,
      fun _ => ⟨binds, hrb, by simp [successState], hcp⟩, ?_⟩
    intro _ hpos envF stF hF hregF
    have hF0 : stF.ret = 0 := by
      rcases add_secure_cases envF stF hF with
        ⟨_, hstF⟩ | ⟨_, _, hstF⟩ | ⟨_, _, _, _, hstF⟩ |
        ⟨_, _, _, _, _, hstF⟩ | ⟨_, _, _, _, _, hstF⟩
      · rcases hstF with hstF | ⟨c, _, hstF⟩ <;> subst hstF <;> rfl
      · subst hstF; rfl
      · subst hstF; rfl
      · subst hstF; rfl
      · subst hstF
        simp [successState] at hregF
    rw [hF0]
    exact ne_of_gt hpos

/-- Witness for the amended C5: the degraded-mode success returns 8080,
which differs from the return of the NULL-credentials failure. -/
theorem add_secure_http2_port_sentinel_witness :
    ((successState 8080 2 3).registered = false →
      (successState 8080 2 3).ret = 0) ∧
    (successState 8080 2 3).ret ≠ (errorCleanup false false false []).ret :=
  ⟨(add_secure_http2_port_sentinel envDegraded (successState 8080 2 3)
      (by decide)).1,
   (add_secure_http2_port_sentinel envDegraded (successState 8080 2 3)
      (by decide)).2.2 rfl (by decide) envNoCreds
      (errorCleanup false false false []) (by decide) rfl⟩

/-- C6: with a NULL credential, an unrecognized credential type, or a
failing SSL context constructor, the call returns the sentinel 0, registers
nothing, creates no security context (and unrefs none), and allocates no
other resource. -/
theorem add_secure_http2_port_bad_credentials (env : Env) (st : CallState)
    (hctx : contextOk env = false)
    (h : grpc_server_add_secure_http2_port env = some st) :
    st.ret = 0 ∧ st.registered = false ∧ st.ctxCreated = false ∧
    st.ctxUnrefs = 0 ∧ st.resolvedCreated = false ∧ st.tcpCreated = false ∧
    st.spAllocated = false := by
  rcases add_secure_cases env st h with
    ⟨_, hst⟩ | ⟨hctx2, _, _⟩ | ⟨_, hctx2, _, _, _⟩ |
    ⟨_, hctx2, _, _, _, _⟩ | ⟨_, hctx2, _, _, _, _⟩
  · rcases hst with hst | ⟨c, _, hst⟩ <;> subst hst <;> simp [errorCleanup]
  all_goals rw [hctx] at hctx2
  all_goals exact absurd hctx2 (by simp)

/-- Witness for C6 at NULL credentials. -/
theorem add_secure_http2_port_bad_credentials_witness :
    (errorCleanup false false false []).ret = 0 ∧
    (errorCleanup false false false []).registered = false ∧
    (errorCleanup false false false []).ctxCreated = false ∧
    (errorCleanup false false false []).ctxUnrefs = 0 ∧
    (errorCleanup false false false []).resolvedCreated = false ∧
    (errorCleanup false false false []).tcpCreated = false ∧
    (errorCleanup false false false []).spAllocated = false :=
  add_secure_http2_port_bad_credentials envNoCreds
    (errorCleanup false false false []) (by decide) (by decide)

/-- C7: a chttp2 transport is constructed exactly when the handshake
status is `GRPC_SECURITY_OK`, over the secured endpoint, with the fixed
ordered server-side filter list and the owning server's channel
configuration; any other status is only logged with its status code, with
no transport created. -/
theorem on_secure_transport_setup_done_dispatch (s : GrpcServer)
    (status secureEndpoint freshMdctx : Nat) :
    (status = GRPC_SECURITY_OK →
      on_secure_transport_setup_done s status secureEndpoint freshMdctx =
        HandshakeOutcome.transportCreated
          { server := s
            channelArgs := grpc_server_get_channel_args s
            endpoint := secureEndpoint
            extraFilters := setup_transport_filters
            mdctx := freshMdctx }) ∧
    (status ≠ GRPC_SECURITY_OK →
      on_secure_transport_setup_done s status secureEndpoint freshMdctx =
        HandshakeOutcome.loggedFailure status) ∧
    (∀ cfg,
      on_secure_transport_setup_done s status secureEndpoint freshMdctx =
        HandshakeOutcome.transportCreated cfg →
      status = GRPC_SECURITY_OK ∧
      cfg.channelArgs = grpc_server_get_channel_args s ∧
      cfg.extraFilters = setup_transport_filters) := by
  refine ⟨?_, ?_, ?_⟩
  · intro h
    simp [on_secure_transport_setup_done, h]
  · intro h
    simp [on_secure_transport_setup_done, h]
  · intro cfg hcfg
    by_cases h : status = GRPC_SECURITY_OK
    · rw [on_secure_transport_setup_done, if_pos h] at hcfg
      have hinj := HandshakeOutcome.transportCreated.inj hcfg
      subst hinj
      exact ⟨h, rfl, rfl⟩
    · rw [on_secure_transport_setup_done, if_neg h] at hcfg
      exact absurd hcfg (by simp)

/-- Witness for C7: an OK handshake builds the transport, a status-2
failure is only logged. -/
theorem on_secure_transport_setup_done_dispatch_witness :
    on_secure_transport_setup_done ⟨7⟩ GRPC_SECURITY_OK 3 5 =
      HandshakeOutcome.transportCreated
        { server := ⟨7⟩
          channelArgs := grpc_server_get_channel_args ⟨7⟩
          endpoint := 3
          extraFilters := setup_transport_filters
          mdctx := 5 } ∧
    on_secure_transport_setup_done ⟨7⟩ 2 3 5 =
      HandshakeOutcome.loggedFailure 2 :=
  ⟨(on_secure_transport_setup_done_dispatch ⟨7⟩ GRPC_SECURITY_OK 3 5).1 rfl,
   (on_secure_transport_setup_done_dispatch ⟨7⟩ 2 3 5).2.1 (by decide)⟩

/-- C8: `destroy` unconditionally destroys the tcp server, releases
exactly one reference on the security context and frees the secured_port
storage, in one invocation, with no dependence on whether `start` ever
ran. -/
theorem destroy_releases_resources (sp : secured_port) :
    destroy sp =
      [LifeEffect.tcpServerDestroy sp.tcp,
       LifeEffect.securityContextUnref sp.ctx,
       LifeEffect.freeSp] ∧
    (destroy sp).count (LifeEffect.securityContextUnref sp.ctx) = 1 ∧
    LifeEffect.tcpServerDestroy sp.tcp ∈ destroy sp ∧
    LifeEffect.freeSp ∈ destroy sp := by
  refine ⟨rfl, ?_, by simp [destroy], by simp [destroy]⟩
  simp [destroy, List.count_cons]

/-- C9: every normal return value is either exactly 0 (all failure paths)
or the canonical port of the first successful bind, which is nonnegative;
the function never returns a negative value, and `envPortZero` shows a
successful bind to port 0 returning the same 0 as the failure paths. -/
theorem add_secure_http2_port_return_range (env : Env) (st : CallState)
    (h : grpc_server_add_secure_http2_port env = some st) :
    0 ≤ st.ret ∧
    (st.registered = false → st.ret = 0) ∧
    (st.registered = true →
      ∃ binds, env.resolvedBinds = some binds ∧
        st.ret = canonicalPort binds ∧ 0 ≤ canonicalPort binds) ∧
    (grpc_server_add_secure_http2_port envPortZero =
        some (successState 0 1 1) ∧
      (successState 0 1 1).registered = true ∧ (successState 0 1 1).ret = 0) := by
  refine ?_
  have hzero : grpc_server_add_secure_http2_port envPortZero =
      some (successState 0 1 1) ∧
      (successState 0 1 1).registered = true ∧
      (successState 0 1 1).ret = 0 := by decide
  rcases add_secure_cases env st h with
    ⟨hctx, hst⟩ | ⟨hctx, hrb, hst⟩ | ⟨binds, hctx, hrb, htcp, hst⟩ |
    ⟨binds, hctx, hrb, htcp, hz, hst⟩ | ⟨binds, hctx, hrb, htcp, hz, hst⟩
  · rcases hst with hst | ⟨c, hc, hst⟩ <;> subst hst <;>
      exact ⟨le_refl 0, fun _ => rfl,
        fun hreg => by simp [errorCleanup] at hreg, hzero⟩
  · subst hst
    exact ⟨le_refl 0, fun _ => rfl,
      fun hreg => by simp [errorCleanup] at hreg, hzero⟩
  · subst hst
    exact ⟨le_refl 0, fun _ => rfl,
      fun hreg => by simp [errorCleanup] at hreg, hzero⟩
  · subst hst
    exact ⟨le_refl 0, fun _ => rfl,
      fun hreg => by simp [errorCleanup] at hreg, hzero⟩
  · subst hst
    have hcp := canonicalPort_nonneg binds hz
    refine ⟨by simpa [successState] using hcp,
      fun hreg => by simp [successState] at hreg,
      fun _ => ⟨binds, hrb, by simp [successState], hcp⟩, hzero⟩

/-- Witness for C9 on the degraded-mode environment. -/
theorem add_secure_http2_port_return_range_witness :
    0 ≤ (successState 8080 2 3).ret ∧
    ((successState 8080 2 3).registered = false →
      (successState 8080 2 3).ret = 0) :=
  ⟨(add_secure_http2_port_return_range envDegraded (successState 8080 2 3)
      (by decide)).1,
   (add_secure_http2_port_return_range envDegraded (successState 8080 2 3)
      (by decide)).2.1⟩

/-- C10: on each successful handshake the transport is constructed with
exactly two extra filters, `grpc_http_server_filter` first and
`grpc_http_filter` second, identical for every connection of every secure
port, and with the metadata context freshly created for that connection
(distinct `grpc_mdctx_create` results give distinct transports' mdctx). -/
theorem chttp2_transport_filters_and_mdctx (s : GrpcServer)
    (secureEndpoint freshMdctx : Nat) :
    on_secure_transport_setup_done s GRPC_SECURITY_OK secureEndpoint
        freshMdctx =
      HandshakeOutcome.transportCreated
        { server := s
          channelArgs := grpc_server_get_channel_args s
          endpoint := secureEndpoint
          extraFilters := [ChannelFilter.grpc_http_server_filter,
            ChannelFilter.grpc_http_filter]
          mdctx := freshMdctx } ∧
    setup_transport_filters.length = 2 ∧
    (∀ (s' : GrpcServer) (e' n' : Nat) (cfg cfg' : TransportCfg),
      on_secure_transport_setup_done s GRPC_SECURITY_OK secureEndpoint
          freshMdctx = HandshakeOutcome.transportCreated cfg →
      on_secure_transport_setup_done s' GRPC_SECURITY_OK e' n' =
        HandshakeOutcome.transportCreated cfg' →
      cfg.extraFilters = cfg'.extraFilters ∧
      (freshMdctx ≠ n' → cfg.mdctx ≠ cfg'.mdctx)) := by
  refine ⟨rfl, rfl, ?_⟩
  intro s' e' n' cfg cfg' h1 h2
  rw [on_secure_transport_setup_done, if_pos rfl] at h1
  rw [on_secure_transport_setup_done, if_pos rfl] at h2
  have e1 := HandshakeOutcome.transportCreated.inj h1
  have e2 := HandshakeOutcome.transportCreated.inj h2
  subst e1
  subst e2
  exact ⟨rfl, fun hne => hne⟩

/-- Witness for C10: two handshakes with distinct fresh mdctx values get
identical filter lists and distinct metadata contexts. -/
theorem chttp2_transport_filters_and_mdctx_witness :
    on_secure_transport_setup_done ⟨1⟩ GRPC_SECURITY_OK 2 3 =
      HandshakeOutcome.transportCreated
        { server := ⟨1⟩
          channelArgs := grpc_server_get_channel_args ⟨1⟩
          endpoint := 2
          extraFilters := [ChannelFilter.grpc_http_server_filter,
            ChannelFilter.grpc_http_filter]
          mdctx := 3 } ∧
    ({ server := ⟨1⟩
       channelArgs := grpc_server_get_channel_args ⟨1⟩
       endpoint := 2
       extraFilters := setup_transport_filters
       mdctx := 3 } : TransportCfg).extraFilters =
      ({ server := ⟨4⟩
         channelArgs := grpc_server_get_channel_args ⟨4⟩
         endpoint := 5
         extraFilters := setup_transport_filters
         mdctx := 6 } : TransportCfg).extraFilters ∧
    ((3 : Nat) ≠ 6 →
      ({ server := ⟨1⟩
         channelArgs := grpc_server_get_channel_args ⟨1⟩
         endpoint := 2
         extraFilters := setup_transport_filters
         mdctx := 3 } : TransportCfg).mdctx ≠
        ({ server := ⟨4⟩
           channelArgs := grpc_server_get_channel_args ⟨4⟩
           endpoint := 5
           extraFilters := setup_transport_filters
           mdctx := 6 } : TransportCfg).mdctx) :=
  ⟨(chttp2_transport_filters_and_mdctx ⟨1⟩ 2 3).1,
   (chttp2_transport_filters_and_mdctx ⟨1⟩ 2 3).2.2 ⟨4⟩ 5 6 _ _ rfl rfl⟩
